import Mathlib

/-!
Shallow embedding of the WASM guest-hosting runtime of munal-os
(src/kernel/src/wasm/mod.rs), together with the surrounding pieces it
touches (socket registry, step context, console capture, per-tick stats).

Conventions of the embedding:
* Guest `i32` values crossing the ABI are represented as `Int` in the
  signed range of `i32` (wasmi hands host closures the signed view).
* Rust `usize` is 64-bit; `x as usize` on an `i32` sign-extends, which we
  model explicitly with `i32AsUsize`.
* A Rust panic in host code (slice-index failure, `expect`, invalid UTF-8)
  aborts the kernel; it is modelled as the `panic` constructor of
  `HostOutcome`, distinct from a recoverable wasmi trap.
* Linear memory is a byte list (`List Nat`, each entry < 256); kernel
  services not present in the extracted sources (TCP stack, clock, stats
  sink, applib input/content types) are modelled from the spec and marked
  as such in their doc comments.
-/

namespace MunalOs

/-- Outcome of running a piece of host code: either a value, or a Rust
panic (which aborts the kernel) carrying the panic message. -/
inductive HostOutcome (α : Type) where
  | ok : α → HostOutcome α
  | panic : String → HostOutcome α
  deriving Repr, DecidableEq

namespace HostOutcome

def bind {α β : Type} : HostOutcome α → (α → HostOutcome β) → HostOutcome β
  | ok a, f => f a
  | panic m, _ => panic m

def isOk {α : Type} : HostOutcome α → Bool
  | ok _ => true
  | panic _ => false

end HostOutcome

/-! ### Machine-integer conversions (Rust `as` casts) -/

/-- Rust `x as usize` for `x : i32` on a 64-bit target: sign-extension,
then reinterpretation as an unsigned 64-bit value. -/
def i32AsUsize (x : Int) : Nat := (x % (2 : Int) ^ 64).toNat

/-- Rust `x as u32` for `x : i32`: two's-complement reinterpretation. -/
def i32AsU32 (x : Int) : Nat := (x % (2 : Int) ^ 32).toNat

/-- The signed `i32` the WASM engine hands a host closure for the guest's
unsigned 32-bit value `u`. -/
def u32ToI32 (u : Nat) : Int :=
  if u < 2 ^ 31 then (u : Int) else (u : Int) - 2 ^ 32

/-- Release-mode Rust `usize` addition (wraps on overflow). -/
def usizeAdd (a b : Nat) : Nat := (a + b) % 2 ^ 64

/-! ### Byte-level helpers -/

/-- Rust slice indexing `&v[a..b]`: panics unless `a ≤ b ∧ b ≤ v.len()`. -/
def rustSlice (v : List Nat) (a b : Nat) : HostOutcome (List Nat) :=
  if a ≤ b ∧ b ≤ v.length then .ok ((v.drop a).take (b - a))
  else .panic "range end index out of range for slice"

/-- Rust `v[a..b].copy_from_slice(src)` with `src.len() = b - a`:
panics on the same bounds as `rustSlice`. -/
def rustSpliceAt (v : List Nat) (a b : Nat) (src : List Nat) :
    HostOutcome (List Nat) :=
  if a ≤ b ∧ b ≤ v.length then
    .ok ((v.take a) ++ src ++ v.drop b)
  else .panic "range end index out of range for slice"

/-- `u32::from_le_bytes` on a 4-byte list. -/
def leU32 (bs : List Nat) : Nat :=
  match bs with
  | [b0, b1, b2, b3] => b0 + 256 * b1 + 256 ^ 2 * b2 + 256 ^ 3 * b3
  | _ => 0

/-- `u32::to_le_bytes`. -/
def u32ToLeBytes (n : Nat) : List Nat :=
  [n % 256, n / 256 % 256, n / 256 ^ 2 % 256, n / 256 ^ 3 % 256]

/-! ### Guest memory bridge (src/kernel/src/wasm/mod.rs lines 78-112)

`get_wasm_mem_slice` / `get_wasm_mem_slice_mut` convert the guest's
`i32` address and length with `as usize` (sign-extension) and index the
linear-memory byte slice with `&mem_data[addr..addr + len]`; an
out-of-bounds range is a Rust panic in host code, there is no
`Result`/trap path. -/

/-- `get_wasm_mem_slice(caller, addr, len)`. -/
def get_wasm_mem_slice (mem : List Nat) (addr len : Int) :
    HostOutcome (List Nat) :=
  let lenU := i32AsUsize len
  let addrU := i32AsUsize addr
  rustSlice mem addrU (usizeAdd addrU lenU)

/-- `get_wasm_mem_slice_mut` reads the same range; the caller then holds a
mutable view, which we model by returning the bytes to be replaced via
`rustSpliceAt` at the call sites. Bounds behaviour is identical. -/
def get_wasm_mem_slice_mut (mem : List Nat) (addr len : Int) :
    HostOutcome (List Nat) :=
  get_wasm_mem_slice mem addr len

/-- `write_to_wasm_mem(caller, addr, data)`: `Memory::write` at
`addr as usize`; the `Result` is `.expect`-ed, so out-of-bounds panics. -/
def write_to_wasm_mem (mem : List Nat) (addr : Int) (data : List Nat) :
    HostOutcome (List Nat) :=
  let addrU := i32AsUsize addr
  match rustSpliceAt mem addrU (usizeAdd addrU data.length) data with
  | .ok m => .ok m
  | .panic _ => .panic "Failed to write to WASM memory"

/-- The host memory offset that the bridge derives from the guest's
unsigned 32-bit address value `u` (`addr as usize` on the signed view). -/
def hostOffsetOfGuestAddr (u : Nat) : Nat := i32AsUsize (u32ToI32 u)

end MunalOs

namespace MunalOs

/-! ### Socket registry (src/kernel/src/wasm/mod.rs lines 129-152)

`SocketsStore` maps a small `i32` id to a kernel socket handle; ids are
assigned from a monotonically increasing counter.  Note the source offers
`add_handle` and `get_handle` only — there is no removal operation. -/

/-- A kernel socket handle (`smoltcp::iface::SocketHandle`), abstracted
to a natural number identity. -/
abbrev SocketHandle := Nat

structure SocketsStore where
  sockets : List (Int × SocketHandle)
  next_id : Int
  deriving Repr, DecidableEq

namespace SocketsStore

def new : SocketsStore := { sockets := [], next_id := 0 }

def add_handle (s : SocketsStore) (handle : SocketHandle) :
    SocketsStore × Int :=
  let new_id := s.next_id
  ({ sockets := (new_id, handle) :: s.sockets, next_id := s.next_id + 1 },
   new_id)

def get_handle (s : SocketsStore) (handle_id : Int) : Option SocketHandle :=
  (s.sockets.find? (fun p => p.1 = handle_id)).map (·.2)

end SocketsStore

/-! ### Console capture and input (applib types, not under src/) -/

/-- Modelled from the spec: applib's `TrackedContent` pairs a content
value with a version token ("a version token that increments on each
mutation"); the token is drawn from a UUID provider.  The console content
is the UTF-8 byte string accumulated so far. -/
structure TrackedContent (α : Type) where
  content : α
  version : Nat
  deriving Repr, DecidableEq

/-- Modelled from the spec: the UUID provider hands out fresh version
tokens; we model it as a counter. -/
abbrev UuidProvider := Nat

/-- Modelled from the spec: `TrackedContent::mutate` yields mutable access
to the content and stamps a fresh version token from the provider.
`f` is the mutation applied through the returned reference. -/
def TrackedContent.mutate {α : Type} (tc : TrackedContent α)
    (uuidp : UuidProvider) (f : α → α) : TrackedContent α × UuidProvider :=
  ({ content := f tc.content, version := uuidp + 1 }, uuidp + 1)

structure Point2D where
  x : Int
  y : Int
  deriving Repr, DecidableEq

/-- Modelled from the spec: applib's window rectangle record
("window rectangle (x,y,w,h)"); `origin` returns its top-left corner. -/
structure Rect where
  x0 : Int
  y0 : Int
  w : Nat
  h : Nat
  deriving Repr, DecidableEq

def Rect.origin (r : Rect) : Int × Int := (r.x0, r.y0)

/-- Modelled from the spec: an input event carries screen coordinates and
an opaque payload (click, key, ...). -/
structure InputEvent where
  x : Int
  y : Int
  payload : Nat
  deriving Repr, DecidableEq

/-- Modelled from the spec: applib's `InputState` holds the pointer
position and the pending event list. -/
structure InputState where
  pointer_x : Int
  pointer_y : Int
  events : List InputEvent
  deriving Repr, DecidableEq

/-- Modelled from the spec: `InputState::clear_events` empties the event
list, keeping pointer state. -/
def InputState.clear_events (i : InputState) : InputState :=
  { i with events := [] }

/-- Modelled from the spec: `InputState::change_origin` translates all
coordinates so that the given point becomes the origin
("(x − win.x0, y − win.y0)"). -/
def InputState.change_origin (i : InputState) (p : Point2D) : InputState :=
  { pointer_x := i.pointer_x - p.x
    pointer_y := i.pointer_y - p.y
    events := i.events.map (fun e => { e with x := e.x - p.x, y := e.y - p.y }) }

/-! ### Kernel services (crate modules not under src/) -/

/-- Modelled from the spec: the in-kernel TCP stack. Sockets are named by
handles; `connect` allocates a fresh socket; `close` closes it;
`write`/`read` fail on a socket that is not open ("negative on failure",
and scenario S2 expects a write to a closed socket to fail); `may_send` /
`may_recv` are non-blocking readiness probes. -/
structure TcpStack where
  openSockets : List SocketHandle
  nextHandle : SocketHandle
  sendReady : List SocketHandle
  recvReady : List SocketHandle
  recvQueues : List (SocketHandle × List Nat)
  sendCapacity : Nat
  deriving Repr, DecidableEq

namespace TcpStack

def connect (t : TcpStack) (_ip : List Nat) (_port : Nat) :
    TcpStack × SocketHandle :=
  ({ t with openSockets := t.nextHandle :: t.openSockets
            nextHandle := t.nextHandle + 1 },
   t.nextHandle)

def may_send (t : TcpStack) (h : SocketHandle) : Bool :=
  t.openSockets.contains h && t.sendReady.contains h

def may_recv (t : TcpStack) (h : SocketHandle) : Bool :=
  t.openSockets.contains h && t.recvReady.contains h

/-- Write some of `buf`; fails (`Except.error`) when the socket is not
open, e.g. after `close`. -/
def write (t : TcpStack) (h : SocketHandle) (buf : List Nat) :
    Except String (TcpStack × Nat) :=
  if t.openSockets.contains h then
    .ok (t, min buf.length t.sendCapacity)
  else .error "socket not open"

/-- Read at most `len` pending bytes; fails when the socket is not open. -/
def read (t : TcpStack) (h : SocketHandle) (len : Nat) :
    Except String (TcpStack × List Nat) :=
  if t.openSockets.contains h then
    let q := ((t.recvQueues.find? (fun p => p.1 = h)).map (·.2)).getD []
    let out := q.take len
    .ok ({ t with recvQueues :=
            t.recvQueues.map (fun p => if p.1 = h then (p.1, q.drop len) else p) },
         out)
  else .error "socket not open"

def close (t : TcpStack) (h : SocketHandle) : TcpStack :=
  { t with openSockets := t.openSockets.filter (· ≠ h)
           sendReady := t.sendReady.filter (· ≠ h)
           recvReady := t.recvReady.filter (· ≠ h) }

end TcpStack

/-- The per-tick stats record. Its field set is forced by the exhaustive
struct literal in `WasmApp::step` (src/kernel/src/wasm/mod.rs lines
342-347): `net_recv`, `net_sent`, `mem_used`, `frametime_used` — and
nothing else. Wall-clock samples are modelled as naturals; `frametime_used`
is their exact difference. -/
structure AppDataPoint where
  net_recv : Nat
  net_sent : Nat
  mem_used : Nat
  frametime_used : Int
  deriving Repr, DecidableEq

/-- Modelled from the spec: the bundle of shared kernel services reachable
from a Step Context — clock, RNG, stylesheet, TCP stack, stats sink. The
clock is a pre-drawn stream of samples indexed by a sample counter. -/
structure System where
  clockStream : Nat → Nat
  clockCount : Nat
  rngStream : Nat → Nat
  rngCount : Nat
  stylesheet : List Nat
  tcp_stack : TcpStack
  stats : List (String × AppDataPoint)

namespace System

/-- `system.clock.time()`: returns the next clock sample. -/
def time (s : System) : Nat × System :=
  (s.clockStream s.clockCount, { s with clockCount := s.clockCount + 1 })

/-- `system.stats.get_app_point_mut(name)` followed by overwriting the
record: replaces (or creates) the per-app stats point. -/
def setStats (s : System) (name : String) (p : AppDataPoint) : System :=
  { s with stats :=
      if (s.stats.find? (fun q => q.1 = name)).isSome then
        s.stats.map (fun q => if q.1 = name then (q.1, p) else q)
      else (name, p) :: s.stats }

/-- Look up the recorded stats point for an app. -/
def getStats (s : System) (name : String) : Option AppDataPoint :=
  (s.stats.find? (fun q => q.1 = name)).map (·.2)

end System

end MunalOs

namespace MunalOs

/-! ### Store data and the Step Context (src/kernel/src/wasm/mod.rs 154-272) -/

/-- `WasmFramebufferDef`: the guest-declared framebuffer region
(`addr: usize`, `w: u32`, `h: u32`). -/
structure WasmFramebufferDef where
  addr : Nat
  w : Nat
  h : Nat
  deriving Repr, DecidableEq

/-- `StepContext`: the per-step record installed into the store. The raw
`*mut System` / `*mut UuidProvider` pointers grant access to the ambient
kernel services, which the embedding threads explicitly as `Kernel`. -/
structure StepContext where
  input_state : InputState
  win_rect : Rect
  timings : List (String × Nat)
  deriving Repr, DecidableEq

/-- `StoreData`: the per-guest data carried by the wasmi store. -/
structure StoreData where
  app_name : String
  framebuffer : Option WasmFramebufferDef
  sockets_store : SocketsStore
  step_context : Option StepContext
  net_recv : Nat
  net_sent : Nat
  console_output : TrackedContent (List Nat)
  deriving Repr, DecidableEq

/-- The ambient kernel state reachable through the Step Context's raw
pointers. -/
structure Kernel where
  system : System
  uuid_provider : UuidProvider

/-- `StepContextView`: the borrow bundle handed to ABI stub bodies. -/
structure StepContextView where
  system : System
  uuid_provider : UuidProvider
  input_state : InputState
  win_rect : Rect
  timings : List (String × Nat)
  console_output : TrackedContent (List Nat)

/-- `StoreData::with_step_context`: panics with "No StepContext set" when
no context is installed; otherwise builds the view and runs `f`, whose
mutations of the view's mutable fields (system, uuid provider, timings,
console) are written back. -/
def StoreData.with_step_context {α : Type} (d : StoreData) (k : Kernel)
    (f : StepContextView → α × StepContextView) :
    HostOutcome (α × StoreData × Kernel) :=
  match d.step_context with
  | none => .panic "No StepContext set"
  | some ctx =>
      let (a, v) := f { system := k.system, uuid_provider := k.uuid_provider
                        input_state := ctx.input_state, win_rect := ctx.win_rect
                        timings := ctx.timings
                        console_output := d.console_output }
      .ok (a,
           { d with step_context := some { ctx with timings := v.timings }
                    console_output := v.console_output },
           { system := v.system, uuid_provider := v.uuid_provider })

/-- `STEP_FUEL = u64::MAX`. -/
def STEP_FUEL : Nat := 2 ^ 64 - 1

/-- The wasmi store plus the engine-level state the runtime touches: the
fuel counter and the guest's exported linear memory (`memPages` is the
page count reported by `Memory::size`; `mem` the byte contents). -/
structure EngineStore where
  data : StoreData
  fuel : Nat
  mem : List Nat
  memPages : Nat
  deriving Repr, DecidableEq

/-- `StoreWrapper::with_context`: sets the fuel allowance to `STEP_FUEL`,
installs a fresh Step Context (empty timings), runs the closure, and
clears the context before returning the closure's result. -/
def StoreWrapper.with_context {α : Type} (st : EngineStore) (k : Kernel)
    (input_state : InputState) (win_rect : Rect)
    (f : EngineStore → Kernel → EngineStore × Kernel × α) :
    EngineStore × Kernel × α :=
  let ctx : StepContext :=
    { input_state := input_state, win_rect := win_rect, timings := [] }
  let st := { st with fuel := STEP_FUEL }
  let st := { st with data := { st.data with step_context := some ctx } }
  let (st, k, a) := f st k
  ({ st with data := { st.data with step_context := none } }, k, a)

/-- `StoreWrapper::get_framebuffer`: `None` when no framebuffer was
registered; otherwise re-resolves the stored triple against current
memory with `&mem_data[addr..addr + (w * h * 4) as usize]` — u32
multiplication wraps, and an out-of-bounds range is a Rust slice panic. -/
def StoreWrapper.get_framebuffer (st : EngineStore) :
    HostOutcome (Option (List Nat × Nat × Nat)) :=
  match st.data.framebuffer with
  | none => .ok none
  | some fb =>
      let wh4 := fb.w * fb.h * 4 % 2 ^ 32
      match rustSlice st.mem fb.addr (usizeAdd fb.addr wh4) with
      | .ok bytes => .ok (some (bytes, fb.w, fb.h))
      | .panic m => .panic m

end MunalOs

namespace MunalOs

/-! ### Remaining byte helpers used by the stubs -/

/-- `u64::to_le_bytes`. -/
def u64ToLeBytes (n : Nat) : List Nat :=
  (List.range 8).map (fun i => n / 256 ^ i % 256)

/-- Rust `n as i32` for `n : usize`: truncate to 32 bits, reinterpret. -/
def usizeAsI32 (n : Nat) : Int := u32ToI32 (n % 2 ^ 32)

/-- Rust `x as i32` encoding of an `Int` into two's-complement `i32`,
then `to_le_bytes` (used for `i32::to_le_bytes` on the IPv4 address). -/
def i32ToLeBytes (x : Int) : List Nat := u32ToLeBytes (i32AsU32 x)

/-- `core::str::from_utf8` validity (the standard UTF-8 byte grammar);
`.unwrap()` on the result panics when this is false. -/
def isValidUtf8 : List Nat → Bool
  | [] => true
  | b :: rest =>
    if b < 0x80 then isValidUtf8 rest
    else if b < 0xC2 then false
    else if b < 0xE0 then
      match rest with
      | c1 :: r => decide (0x80 ≤ c1 ∧ c1 < 0xC0) && isValidUtf8 r
      | [] => false
    else if b < 0xF0 then
      match rest with
      | c1 :: c2 :: r =>
          let lo1 := if b = 0xE0 then 0xA0 else 0x80
          let hi1 := if b = 0xED then 0xA0 else 0xC0
          decide (lo1 ≤ c1 ∧ c1 < hi1) && decide (0x80 ≤ c2 ∧ c2 < 0xC0)
            && isValidUtf8 r
      | _ => false
    else if b < 0xF5 then
      match rest with
      | c1 :: c2 :: c3 :: r =>
          let lo1 := if b = 0xF0 then 0x90 else 0x80
          let hi1 := if b = 0xF4 then 0x90 else 0xC0
          decide (lo1 ≤ c1 ∧ c1 < hi1) && decide (0x80 ≤ c2 ∧ c2 < 0xC0)
            && decide (0x80 ≤ c3 ∧ c3 < 0xC0) && isValidUtf8 r
      | _ => false
    else false

/-- ASCII fragment of `str::trim_end` (host_log trims trailing
whitespace; guest messages are ASCII text). -/
def isWhitespaceByte (b : Nat) : Bool :=
  b = 32 || b = 9 || b = 10 || b = 11 || b = 12 || b = 13

def trimEndBytes (bs : List Nat) : List Nat :=
  (bs.reverse.dropWhile isWhitespaceByte).reverse

/-- Modelled from the spec: the little-endian packed wire encoding of an
input event (coordinates as `i32`, then the payload word). -/
def encodeInputEvent (e : InputEvent) : List Nat :=
  i32ToLeBytes e.x ++ i32ToLeBytes e.y ++ u32ToLeBytes (e.payload % 2 ^ 32)

/-- Modelled from the spec: the little-endian packed wire encoding of the
input state record written by `host_get_input_state`. -/
def encodeInputState (i : InputState) : List Nat :=
  i32ToLeBytes i.pointer_x ++ i32ToLeBytes i.pointer_y
    ++ u32ToLeBytes (i.events.length % 2 ^ 32)
    ++ (i.events.map encodeInputEvent).flatten

/-- Two's-complement `i64` little-endian bytes. -/
def i64ToLeBytes (x : Int) : List Nat :=
  u64ToLeBytes ((x % (2 : Int) ^ 64).toNat)

/-- Modelled from the spec: the wire encoding of the window rectangle
("x,y,w,h as signed 64/unsigned 32"). -/
def encodeRect (r : Rect) : List Nat :=
  i64ToLeBytes r.x0 ++ i64ToLeBytes r.y0
    ++ u32ToLeBytes (r.w % 2 ^ 32) ++ u32ToLeBytes (r.h % 2 ^ 32)

/-! ### ABI stubs (src/kernel/src/wasm/mod.rs, `add_host_apis`)

Each stub takes the engine store, the ambient kernel state, and its guest
arguments, and returns the updated state together with its `i32` return
value (when it has one). The order of effects and panics mirrors the
source body line by line. -/

/-- `clock_time_get(clock_id, precision, time)`: reads the clock through
the Step Context, then stores the nanosecond count as 8 LE bytes at
`time as usize`. -/
def clock_time_get (st : EngineStore) (k : Kernel)
    (_clock_id : Int) (_precision : Int) (time : Int) :
    HostOutcome (EngineStore × Kernel × Int) :=
  let buf := i32AsUsize time
  match st.data.with_step_context k
      (fun v => ((v.system.clockStream v.system.clockCount * 1000000000) % 2 ^ 64,
        { v with system := { v.system with
                   clockCount := v.system.clockCount + 1 } })) with
  | .panic m => .panic m
  | .ok (t, d, k) =>
      match rustSpliceAt st.mem buf (usizeAdd buf 8) (u64ToLeBytes t) with
      | .panic m => .panic m
      | .ok mem => .ok ({ st with data := d, mem := mem }, k, 0)

/-- `fd_write(fd, iovs, iovs_len, nwritten)`: decodes the first iovec,
checks the bytes are UTF-8 (panicking otherwise), emits them at host
debug level only, and stores the written length at `nwritten`. The store
data — console stream included — is untouched. -/
def fd_write (st : EngineStore) (k : Kernel)
    (_fd : Int) (iovs : Int) (_iovs_len : Int) (nwritten : Int) :
    HostOutcome (EngineStore × Kernel × Int) :=
  let iovsU := i32AsUsize iovs
  let nwrittenU := i32AsUsize nwritten
  match rustSlice st.mem iovsU (usizeAdd iovsU 4) with
  | .panic m => .panic m
  | .ok ptrBytes =>
    match rustSlice st.mem (usizeAdd iovsU 4) (usizeAdd iovsU 8) with
    | .panic m => .panic m
    | .ok lenBytes =>
      let buf_ptr := leU32 ptrBytes
      let buf_len := leU32 lenBytes
      match rustSlice st.mem buf_ptr (usizeAdd buf_ptr buf_len) with
      | .panic m => .panic m
      | .ok strBytes =>
        if isValidUtf8 strBytes then
          match rustSpliceAt st.mem nwrittenU (usizeAdd nwrittenU 4)
              (u32ToLeBytes buf_len) with
          | .panic m => .panic m
          | .ok mem => .ok ({ st with mem := mem }, k, 0)
        else .panic "invalid utf-8 sequence"

/-- `log_message(msg, level, step_context)`: appends the message and a
newline to the console stream through one `mutate` (one fresh version
token), and emits at the host log level selected by `level`. -/
def log_message (msg : List Nat) (_level : Int) (v : StepContextView) :
    StepContextView :=
  let (c, u) := v.console_output.mutate v.uuid_provider
    (fun s => s ++ msg ++ [10])
  { v with console_output := c, uuid_provider := u }

/-- `host_log(addr, len, level)`: reads the guest bytes (bounds panic),
requires UTF-8 (panic otherwise), trims trailing whitespace, then appends
to the console through the Step Context. -/
def host_log (st : EngineStore) (k : Kernel) (addr len level : Int) :
    HostOutcome (EngineStore × Kernel) :=
  match get_wasm_mem_slice st.mem addr len with
  | .panic m => .panic m
  | .ok mem_slice =>
    if isValidUtf8 mem_slice then
      let msg := trimEndBytes mem_slice
      match st.data.with_step_context k (fun v => ((), log_message msg level v)) with
      | .panic m => .panic m
      | .ok (_, d, k) => .ok ({ st with data := d }, k)
    else .panic "Not UTF-8"

/-- `host_get_input_state(addr)`: clones the window-local input snapshot
out of the Step Context, then writes its wire encoding at `addr`. -/
def host_get_input_state (st : EngineStore) (k : Kernel) (addr : Int) :
    HostOutcome (EngineStore × Kernel) :=
  match st.data.with_step_context k (fun v => (v.input_state, v)) with
  | .panic m => .panic m
  | .ok (i, d, k) =>
      match write_to_wasm_mem st.mem addr (encodeInputState i) with
      | .panic m => .panic m
      | .ok mem => .ok ({ st with data := d, mem := mem }, k)

/-- `host_get_win_rect(addr)`: clones the window rectangle out of the
Step Context, then writes its wire encoding at `addr`. -/
def host_get_win_rect (st : EngineStore) (k : Kernel) (addr : Int) :
    HostOutcome (EngineStore × Kernel) :=
  match st.data.with_step_context k (fun v => (v.win_rect, v)) with
  | .panic m => .panic m
  | .ok (r, d, k) =>
      match write_to_wasm_mem st.mem addr (encodeRect r) with
      | .panic m => .panic m
      | .ok mem => .ok ({ st with data := d, mem := mem }, k)

/-- `host_set_framebuffer(addr, w, h)`: records the region triple
(`addr as usize`, `w as u32`, `h as u32`) in the store. It touches no
Step Context and has no failure path. -/
def host_set_framebuffer (st : EngineStore) (k : Kernel) (addr w h : Int) :
    HostOutcome (EngineStore × Kernel) :=
  let fb : WasmFramebufferDef :=
    { addr := i32AsUsize addr, w := i32AsU32 w, h := i32AsU32 h }
  .ok ({ st with data := { st.data with framebuffer := some fb } }, k)

/-! ### TCP ABI stubs (src/kernel/src/wasm/mod.rs lines 696-844) -/

/-- `host_tcp_connect(ip_addr, port)`: converts the IPv4 address to LE
bytes, converts the port with `try_into().expect("Invalid port value")`
(panicking outside `0..65536`), asks the TCP stack for a connection
through the Step Context, and registers the returned handle. -/
def host_tcp_connect (st : EngineStore) (k : Kernel) (ip_addr port : Int) :
    HostOutcome (EngineStore × Kernel × Int) :=
  let ip_bytes := i32ToLeBytes ip_addr
  if 0 ≤ port ∧ port < 65536 then
    match st.data.with_step_context k (fun v =>
        let (t, sh) := v.system.tcp_stack.connect ip_bytes port.toNat
        (sh, { v with system := { v.system with tcp_stack := t } })) with
    | .panic m => .panic m
    | .ok (sh, d, k) =>
        let (ss, handle_id) := d.sockets_store.add_handle sh
        .ok ({ st with data := { d with sockets_store := ss } }, k, handle_id)
  else .panic "Invalid port value"

/-- `host_tcp_may_send(handle_id)`: looks the id up with
`.expect("No TCP connection")` — an unknown id is a host panic — then
probes the stack through the Step Context; returns 1/0. -/
def host_tcp_may_send (st : EngineStore) (k : Kernel) (handle_id : Int) :
    HostOutcome (EngineStore × Kernel × Int) :=
  match st.data.sockets_store.get_handle handle_id with
  | none => .panic "No TCP connection"
  | some sh =>
    match st.data.with_step_context k
        (fun v => (v.system.tcp_stack.may_send sh, v)) with
    | .panic m => .panic m
    | .ok (b, d, k) => .ok ({ st with data := d }, k, if b then 1 else 0)

/-- `host_tcp_may_recv(handle_id)`: same shape as `host_tcp_may_send`. -/
def host_tcp_may_recv (st : EngineStore) (k : Kernel) (handle_id : Int) :
    HostOutcome (EngineStore × Kernel × Int) :=
  match st.data.sockets_store.get_handle handle_id with
  | none => .panic "No TCP connection"
  | some sh =>
    match st.data.with_step_context k
        (fun v => (v.system.tcp_stack.may_recv sh, v)) with
    | .panic m => .panic m
    | .ok (b, d, k) => .ok ({ st with data := d }, k, if b then 1 else 0)

/-- `host_tcp_write(addr, len, handle_id)`: copies the guest bytes
(bounds panic), looks the id up with `.expect("No TCP connection")`
(unknown id panics), then writes through the Step Context; a stack-level
write error becomes a guest-visible -1, a successful write bumps
`net_sent` and returns the written length. -/
def host_tcp_write (st : EngineStore) (k : Kernel)
    (addr len handle_id : Int) : HostOutcome (EngineStore × Kernel × Int) :=
  match get_wasm_mem_slice st.mem addr len with
  | .panic m => .panic m
  | .ok buf =>
    match st.data.sockets_store.get_handle handle_id with
    | none => .panic "No TCP connection"
    | some sh =>
      match st.data.with_step_context k (fun v =>
          match v.system.tcp_stack.write sh buf with
          | .ok (t, n) =>
              ((Except.ok n : Except String Nat),
               { v with system := { v.system with tcp_stack := t } })
          | .error e => (.error e, v)) with
      | .panic m => .panic m
      | .ok (res, d, k) =>
        match res with
        | .ok written_len =>
            .ok ({ st with data :=
                    { d with net_sent := d.net_sent + written_len } },
                 k, usizeAsI32 written_len)
        | .error _ => .ok ({ st with data := d }, k, -1)

/-- `host_tcp_read(addr, len, handle_id)`: looks the id up with
`.expect("No TCP connection")` (unknown id panics), reads through the
Step Context (a stack error becomes -1), copies the bytes into guest
memory at `addr` (bounds panic), bumps `net_recv`, and returns the read
length. -/
def host_tcp_read (st : EngineStore) (k : Kernel)
    (addr len handle_id : Int) : HostOutcome (EngineStore × Kernel × Int) :=
  let lenU := i32AsUsize len
  let addrU := i32AsUsize addr
  match st.data.sockets_store.get_handle handle_id with
  | none => .panic "No TCP connection"
  | some sh =>
    match st.data.with_step_context k (fun v =>
        match v.system.tcp_stack.read sh lenU with
        | .ok (t, bytes) =>
            ((Except.ok bytes : Except String (List Nat)),
             { v with system := { v.system with tcp_stack := t } })
        | .error e => (.error e, v)) with
    | .panic m => .panic m
    | .ok (res, d, k) =>
      match res with
      | .ok bytes =>
          let read_len := bytes.length
          match rustSpliceAt st.mem addrU (usizeAdd addrU read_len) bytes with
          | .panic m => .panic m
          | .ok mem =>
              .ok ({ st with mem := mem,
                             data := { d with net_recv := d.net_recv + read_len } },
                   k, usizeAsI32 read_len)
      | .error _ => .ok ({ st with data := d }, k, -1)

/-- `host_tcp_close(handle_id)`: looks the id up with
`.expect("No TCP connection")` (unknown id panics) and closes the socket
in the TCP stack through the Step Context. The socket registry is left
untouched — `SocketsStore` has no removal operation. -/
def host_tcp_close (st : EngineStore) (k : Kernel) (handle_id : Int) :
    HostOutcome (EngineStore × Kernel) :=
  match st.data.sockets_store.get_handle handle_id with
  | none => .panic "No TCP connection"
  | some sh =>
    match st.data.with_step_context k (fun v =>
        ((), { v with system := { v.system with
                 tcp_stack := v.system.tcp_stack.close sh } })) with
    | .panic m => .panic m
    | .ok (_, d, k) => .ok ({ st with data := d }, k)

end MunalOs

namespace MunalOs

/-! ### Guest stepping (src/kernel/src/wasm/mod.rs lines 280-350) -/

/-- How one invocation of the guest's `step` export ends: a normal
return, a wasmi trap (surfaced by `TypedFunc::call` as a recoverable
`Err`), or a Rust panic inside a host stub (which aborts the kernel). -/
inductive GuestExit where
  | normal
  | trap
  | panicked (msg : String)
  deriving Repr, DecidableEq

/-- The observable result of running the guest's `step` export body. -/
structure GuestStep where
  st : EngineStore
  k : Kernel
  exit : GuestExit

/-- A guest `step` export: arbitrary guest code that may call ABI stubs,
consume fuel, grow memory, and finally return, trap, or panic a stub. -/
def Guest : Type := EngineStore → Kernel → GuestStep

/-- The window-local input snapshot built at the top of `WasmApp::step`:
clone the global input, clear events unless the guest is foreground, then
translate coordinates to the window origin. -/
def relativeInputState (input_state : InputState) (win_rect : Rect)
    (is_foreground : Bool) : InputState :=
  let i := input_state
  let i := if is_foreground then i else i.clear_events
  let o := win_rect.origin
  i.change_origin { x := o.1, y := o.2 }

/-- `WasmApp::step`: builds the window-local input snapshot, samples
`t0`, runs the guest's `step` export inside `with_context` (skipping the
call when paused, and zeroing the per-step net counters either way),
samples `t1`, and overwrites the per-app stats point. Returns the
updated state plus `true` for a normal step and `false` for a trapped
one (the `Result` handed to the scheduler); a stub panic aborts. -/
def WasmApp.step (guest : Guest) (st : EngineStore) (k : Kernel)
    (input_state : InputState) (win_rect : Rect)
    (is_foreground is_paused : Bool) :
    HostOutcome (EngineStore × Kernel × Bool) :=
  let relative_input_state := relativeInputState input_state win_rect is_foreground
  let (t0, sys0) := k.system.time
  let k := { k with system := sys0 }
  let (st1, k1, exit) :=
    StoreWrapper.with_context st k relative_input_state win_rect
      (fun st k =>
        let st := { st with data := { st.data with net_recv := 0, net_sent := 0 } }
        match is_paused with
        | false => let g := guest st k; (g.st, g.k, g.exit)
        | true => (st, k, GuestExit.normal))
  match exit with
  | .panicked msg => .panic msg
  | e =>
      let (t1, sys1) := k1.system.time
      let mem_size := st1.memPages * 65536
      let point : AppDataPoint :=
        { net_recv := st1.data.net_recv, net_sent := st1.data.net_sent
          mem_used := mem_size
          frametime_used := (t1 : Int) - (t0 : Int) }
      let sys2 := sys1.setStats st1.data.app_name point
      .ok (st1, { k1 with system := sys2 },
           match e with | .normal => true | _ => false)

/-- `WasmApp::get_framebuffer` delegates to the store wrapper. -/
def WasmApp.get_framebuffer (st : EngineStore) :
    HostOutcome (Option (List Nat × Nat × Nat)) :=
  StoreWrapper.get_framebuffer st

end MunalOs

namespace MunalOs

/-! ### Outcome projections (used to state properties of stub results) -/

/-- The `i32` return value of a stub call, when it did not panic. -/
def retVal : HostOutcome (EngineStore × Kernel × Int) → Option Int
  | .ok (_, _, r) => some r
  | .panic _ => none

/-- The resulting engine store of a value-returning stub call. -/
def outStore3 : HostOutcome (EngineStore × Kernel × Int) → Option EngineStore
  | .ok (st, _, _) => some st
  | .panic _ => none

/-- The resulting store data of a value-returning stub call. -/
def outData3 : HostOutcome (EngineStore × Kernel × Int) → Option StoreData
  | .ok (st, _, _) => some st.data
  | .panic _ => none

/-- The resulting engine store of a unit-returning stub call. -/
def outStore2 : HostOutcome (EngineStore × Kernel) → Option EngineStore
  | .ok (st, _) => some st
  | .panic _ => none

/-- The resulting engine store of a `WasmApp::step` call. -/
def stepStore : HostOutcome (EngineStore × Kernel × Bool) → Option EngineStore
  | .ok (st, _, _) => some st
  | .panic _ => none

/-- The scheduler-visible step result: `some true` for a normal return,
`some false` for a trapped tick, `none` when a stub panic aborted. -/
def stepFlag : HostOutcome (EngineStore × Kernel × Bool) → Option Bool
  | .ok (_, _, b) => some b
  | .panic _ => none

/-- The stats point recorded for `name` after a `WasmApp::step` call. -/
def statsOf (r : HostOutcome (EngineStore × Kernel × Bool)) (name : String) :
    Option AppDataPoint :=
  match r with
  | .ok (_, k, _) => k.system.getStats name
  | .panic _ => none

/-! ### Concrete fixtures for witnesses and counterexamples -/

/-- A TCP stack with one open, send-ready socket handle 0. -/
def tcpA : TcpStack :=
  { openSockets := [0], nextHandle := 1, sendReady := [0], recvReady := []
    recvQueues := [], sendCapacity := 1024 }

def sysA : System :=
  { clockStream := fun n => n, clockCount := 0, rngStream := fun _ => 0
    rngCount := 0, stylesheet := [], tcp_stack := tcpA, stats := [] }

def kernA : Kernel := { system := sysA, uuid_provider := 0 }

def inputA : InputState := { pointer_x := 0, pointer_y := 0, events := [] }

def rectA : Rect := { x0 := 0, y0 := 0, w := 100, h := 100 }

def ctxA : StepContext :=
  { input_state := inputA, win_rect := rectA, timings := [] }

/-- 16 bytes of linear memory: the iovec at 0 points at 3 bytes "hi\n"
stored at offset 8; offset 12 is free space for `nwritten`. -/
def memA : List Nat :=
  [8, 0, 0, 0, 3, 0, 0, 0, 104, 105, 10, 0, 0, 0, 0, 0]

/-- Store data with no Step Context installed. -/
def dataNoCtx : StoreData :=
  { app_name := "app", framebuffer := none, sockets_store := SocketsStore.new
    step_context := none, net_recv := 0, net_sent := 0
    console_output := { content := [], version := 0 } }

/-- Store data with a Step Context installed. -/
def dataCtx : StoreData := { dataNoCtx with step_context := some ctxA }

/-- Store data with a Step Context and socket id 0 ↦ handle 0. -/
def dataCtxSock : StoreData :=
  { dataCtx with sockets_store := { sockets := [(0, 0)], next_id := 1 } }

def stNoCtx : EngineStore :=
  { data := dataNoCtx, fuel := STEP_FUEL, mem := memA, memPages := 1 }

def stCtx : EngineStore :=
  { data := dataCtx, fuel := STEP_FUEL, mem := memA, memPages := 1 }

def stCtxSock : EngineStore :=
  { data := dataCtxSock, fuel := STEP_FUEL, mem := memA, memPages := 1 }

end MunalOs

namespace MunalOs

/-- A registered 2×2 framebuffer whose 16-byte region exceeds the 8-byte
linear memory. -/
def stFb : EngineStore :=
  { data := { dataNoCtx with framebuffer := some { addr := 0, w := 2, h := 2 } }
    fuel := STEP_FUEL, mem := [0, 0, 0, 0, 0, 0, 0, 0], memPages := 1 }

/-- A store with only 4 bytes of linear memory. -/
def stSmall : EngineStore :=
  { data := dataNoCtx, fuel := STEP_FUEL, mem := [0, 0, 0, 0], memPages := 1 }

/-- A guest whose `step` body reads (2, 8) through the memory bridge —
out of bounds for `stSmall` — and otherwise returns normally. -/
def gOOB : Guest := fun s kk =>
  match get_wasm_mem_slice s.mem 2 8 with
  | .panic m => { st := s, k := kk, exit := .panicked m }
  | .ok _ => { st := s, k := kk, exit := .normal }

/-- A guest that always traps. -/
def gTrap : Guest := fun s kk => { st := s, k := kk, exit := .trap }

/-- A guest that returns normally leaving 100 fuel units. -/
def gFuelA : Guest := fun s kk =>
  { st := { s with fuel := 100 }, k := kk, exit := .normal }

/-- A guest that returns normally leaving 7 fuel units. -/
def gFuelB : Guest := fun s kk =>
  { st := { s with fuel := 7 }, k := kk, exit := .normal }

/-- A guest that returns normally and touches nothing. -/
def gIdle : Guest := fun s kk => { st := s, k := kk, exit := .normal }

/-- A guest that traps unless it observes exactly the translated
background input snapshot for `inputA`/`rectA` in its Step Context. -/
def gCtxCheck : Guest := fun s kk =>
  if s.data.step_context
      = some { input_state := relativeInputState inputA rectA false
               win_rect := rectA, timings := [] }
  then { st := s, k := kk, exit := .normal }
  else { st := s, k := kk, exit := .trap }

/-- Replacing the entry for `n` in an association list makes it the entry
that a subsequent lookup finds. -/
theorem findReplaceAux (t : List (String × AppDataPoint)) (n : String)
    (p : AppDataPoint)
    (h : (t.find? (fun q => q.1 = n)).isSome = true) :
    ((t.map (fun q => if q.1 = n then (q.1, p) else q)).find?
        (fun q => q.1 = n)).map (·.2) = some p := by
  induction t with
  | nil => simp at h
  | cons q t ih =>
      by_cases hq : q.1 = n
      · simp [List.find?_cons, hq]
      · rw [List.find?_cons_of_neg] at h
        · simp only [List.map_cons, if_neg hq]
          rw [List.find?_cons_of_neg]
          · exact ih h
          · simp [hq]
        · simp [hq]

/-- Overwriting the per-app stats point makes it the recorded point. -/
theorem System.getStats_setStats (s : System) (n : String) (p : AppDataPoint) :
    (s.setStats n p).getStats n = some p := by
  unfold System.setStats System.getStats
  split
  · next h => exact findReplaceAux s.stats n p h
  · next h => simp [List.find?_cons]

end MunalOs

namespace MunalOs

/-! ## Claim C1 — context hygiene -/

/-- Claim C1, counterexample: not every ABI stub panics when no Step
Context is installed. `host_set_framebuffer` (and likewise `fd_write`)
never consults the context: invoked on a store whose context slot is
`none`, it returns normally instead of panicking with
"No StepContext set". -/
theorem C1_counterexample :
    stNoCtx.data.step_context = none ∧
    host_set_framebuffer stNoCtx kernA 4096 4 2
      ≠ .panic "No StepContext set" ∧
    (host_set_framebuffer stNoCtx kernA 4096 4 2).isOk = true := by
  refine ⟨rfl, ?_, rfl⟩
  intro h
  simp [host_set_framebuffer] at h

/-- Claim C1, amended: `with_step_context` — and therefore every ABI stub
that consults the Step Context before touching guest memory, such as
`clock_time_get`, `host_get_input_state` and `host_get_win_rect` — panics
with the deterministic message "No StepContext set" when no context is
installed (stubs that only touch store-local state, like
`host_set_framebuffer`, do not consult it); and `with_context` installs
the context (fresh timings) before invoking its closure and clears it
back to `none` on exit, so the slot is populated exactly while the
closure runs. -/
theorem C1_amended_theorem :
    (∀ (α : Type) (d : StoreData) (k : Kernel)
        (f : StepContextView → α × StepContextView),
      d.step_context = none →
      d.with_step_context k f = .panic "No StepContext set") ∧
    (∀ st k a b c, st.data.step_context = none →
      clock_time_get st k a b c = .panic "No StepContext set") ∧
    (∀ st k a, st.data.step_context = none →
      host_get_input_state st k a = .panic "No StepContext set") ∧
    (∀ st k a, st.data.step_context = none →
      host_get_win_rect st k a = .panic "No StepContext set") ∧
    (∀ st k i r, (StoreWrapper.with_context st k i r
        (fun s kk => (s, kk, s.data.step_context))).2.2
      = some { input_state := i, win_rect := r, timings := [] }) ∧
    (∀ (α : Type) (st : EngineStore) (k : Kernel) (i : InputState) (r : Rect)
        (f : EngineStore → Kernel → EngineStore × Kernel × α),
      (StoreWrapper.with_context st k i r f).1.data.step_context = none) := by
  refine ⟨?_, ?_, ?_, ?_, ?_, ?_⟩
  · intro α d k f h
    simp [StoreData.with_step_context, h]
  · intro st k a b c h
    simp [clock_time_get, StoreData.with_step_context, h]
  · intro st k a h
    simp [host_get_input_state, StoreData.with_step_context, h]
  · intro st k a h
    simp [host_get_win_rect, StoreData.with_step_context, h]
  · intro st k i r
    rfl
  · intro α st k i r f
    rfl

/-- Claim C1, witness: the amended theorem applied at a concrete store
with an empty context slot. -/
theorem C1_amended_witness :
    stNoCtx.data.step_context = none ∧
    clock_time_get stNoCtx kernA 0 0 0 = .panic "No StepContext set" :=
  ⟨rfl, C1_amended_theorem.2.1 stNoCtx kernA 0 0 0 rfl⟩

/-! ## Claim C6 — guest address extension -/

/-- Claim C6, counterexample: guest addresses are NOT zero-extended. For
the 32-bit address value 0xFFFFFFFF the bridge's `addr as usize` yields
2⁶⁴ − 1 (sign-extension of the signed view −1), not 4294967295. -/
theorem C6_counterexample :
    hostOffsetOfGuestAddr 4294967295 = 18446744073709551615 ∧
    hostOffsetOfGuestAddr 4294967295 ≠ 4294967295 := by
  refine ⟨by decide, by decide⟩

/-- Claim C6, amended: guest addresses crossing the bridge are
sign-extended from 32 bits (`i32 as usize`): the host offset used by
`get_wasm_mem_slice` equals the unsigned value of the address exactly
when it is below 2³¹, and equals 2⁶⁴ − 2³² + a for addresses with the
high bit set. -/
theorem C6_amended_theorem (u : Nat) (hu : u < 2 ^ 32) :
    (∀ mem len, get_wasm_mem_slice mem (u32ToI32 u) len
      = rustSlice mem (hostOffsetOfGuestAddr u)
          (usizeAdd (hostOffsetOfGuestAddr u) (i32AsUsize len))) ∧
    (u < 2 ^ 31 → hostOffsetOfGuestAddr u = u) ∧
    (2 ^ 31 ≤ u → hostOffsetOfGuestAddr u = 2 ^ 64 - 2 ^ 32 + u) := by
  refine ⟨fun mem len => rfl, ?_, ?_⟩
  · intro h
    simp only [hostOffsetOfGuestAddr, u32ToI32, if_pos h, i32AsUsize]
    omega
  · intro h
    simp only [hostOffsetOfGuestAddr, u32ToI32, if_neg (by omega : ¬u < 2 ^ 31),
      i32AsUsize]
    omega

/-- Claim C6, witness: the amended theorem applied at address
0xFFFFFFFF. -/
theorem C6_amended_witness :
    4294967295 < 2 ^ 32 ∧ 2 ^ 31 ≤ 4294967295 ∧
    hostOffsetOfGuestAddr 4294967295 = 2 ^ 64 - 2 ^ 32 + 4294967295 :=
  ⟨by decide, by decide,
   (C6_amended_theorem 4294967295 (by decide)).2.2 (by decide)⟩

end MunalOs

namespace MunalOs

/-! ## Claim C2 — fd_write and the console stream -/

/-- Claim C2, counterexample: a guest write of "hi\n" (bytes 104 105 10)
through `fd_write` leaves the console stream untouched — the content is
still empty (so it does not end with "hi\n") and the version token is
unchanged rather than incremented once. `fd_write` only emits the bytes
at host debug level and stores the count at `nwritten`. -/
theorem C2_counterexample :
    (fd_write stCtx kernA 1 0 1 12).isOk = true ∧
    (outData3 (fd_write stCtx kernA 1 0 1 12)).map (·.console_output)
      = some { content := [], version := 0 } ∧
    stCtx.data.console_output = { content := [], version := 0 } ∧
    List.isSuffixOf [104, 105, 10] ([] : List Nat) = false := by
  refine ⟨rfl, by decide, rfl, by decide⟩

/-- Claim C2, amended: `fd_write` either panics (malformed iovec bounds
or non-UTF-8 bytes) or succeeds returning 0 while modifying nothing but
linear memory (the `nwritten` slot); in particular the guest's console
stream and its version token are never touched — console capture happens
only through `host_log`. -/
theorem C2_amended_theorem (st : EngineStore) (k : Kernel)
    (fd iovs il nw : Int) :
    (∃ m, fd_write st k fd iovs il nw = .panic m) ∨
    (∃ mem2, fd_write st k fd iovs il nw = .ok ({ st with mem := mem2 }, k, 0)) := by
  unfold fd_write
  dsimp only
  repeat' split
  all_goals first
    | exact Or.inl ⟨_, rfl⟩
    | exact Or.inr ⟨_, rfl⟩

/-! ## Claim C4 — unknown socket handles -/

/-- Claim C4, counterexample: an unknown socket id does not surface as a
-1 return value; `host_tcp_may_send` on an id absent from the registry
panics the host with "No TCP connection". -/
theorem C4_counterexample :
    stCtx.data.sockets_store.get_handle 5 = none ∧
    host_tcp_may_send stCtx kernA 5 = .panic "No TCP connection" ∧
    retVal (host_tcp_may_send stCtx kernA 5) ≠ some (-1) := by
  refine ⟨rfl, rfl, by decide⟩

/-- Claim C4, amended: for every socket id absent from the guest's
registry, each of the four TCP stubs taking an id panics the host with
"No TCP connection" (`host_tcp_write` after its in-bounds buffer copy);
-1 is returned only for TCP-stack-level failures on registered ids. -/
theorem C4_amended_theorem (st : EngineStore) (k : Kernel) (id : Int)
    (h : st.data.sockets_store.get_handle id = none) :
    host_tcp_may_send st k id = .panic "No TCP connection" ∧
    host_tcp_may_recv st k id = .panic "No TCP connection" ∧
    (∀ a l : Int, host_tcp_read st k a l id = .panic "No TCP connection") ∧
    (∀ a l : Int, (get_wasm_mem_slice st.mem a l).isOk = true →
      host_tcp_write st k a l id = .panic "No TCP connection") := by
  refine ⟨?_, ?_, ?_, ?_⟩
  · simp [host_tcp_may_send, h]
  · simp [host_tcp_may_recv, h]
  · intro a l
    simp [host_tcp_read, h]
  · intro a l hs
    rcases hb : get_wasm_mem_slice st.mem a l with b | m
    · simp [host_tcp_write, hb, h]
    · rw [hb] at hs
      simp [HostOutcome.isOk] at hs

/-- Claim C4, witness: the amended theorem applied at a concrete store
with an empty registry and id 5. -/
theorem C4_amended_witness :
    stCtx.data.sockets_store.get_handle 5 = none ∧
    host_tcp_may_recv stCtx kernA 5 = .panic "No TCP connection" ∧
    host_tcp_write stCtx kernA 0 4 5 = .panic "No TCP connection" :=
  ⟨rfl, (C4_amended_theorem stCtx kernA 5 rfl).2.1,
   (C4_amended_theorem stCtx kernA 5 rfl).2.2.2 0 4 (by decide)⟩

/-! ## Claim C7 — out-of-bounds framebuffer region -/

/-- Claim C7, counterexample: with a registered 2×2 region (16 bytes)
over an 8-byte linear memory, `get_framebuffer` does not skip (it never
returns `.ok none` for a registered region): the slice access panics the
host. -/
theorem C7_counterexample :
    stFb.data.framebuffer = some { addr := 0, w := 2, h := 2 } ∧
    StoreWrapper.get_framebuffer stFb
      = .panic "range end index out of range for slice" ∧
    StoreWrapper.get_framebuffer stFb ≠ .ok none := by
  refine ⟨rfl, rfl, by decide⟩

/-- Claim C7, amended: the compositor read returns `none` (no blit) only
when no framebuffer is registered; a registered region that is out of
bounds for the current memory panics the host (Rust slice indexing), and
an in-bounds region yields the pixel bytes. -/
theorem C7_amended_theorem (st : EngineStore) :
    (st.data.framebuffer = none → StoreWrapper.get_framebuffer st = .ok none) ∧
    (∀ fb, st.data.framebuffer = some fb →
      ¬(fb.addr ≤ usizeAdd fb.addr (fb.w * fb.h * 4 % 2 ^ 32) ∧
        usizeAdd fb.addr (fb.w * fb.h * 4 % 2 ^ 32) ≤ st.mem.length) →
      StoreWrapper.get_framebuffer st
        = .panic "range end index out of range for slice") ∧
    (∀ fb, st.data.framebuffer = some fb →
      (fb.addr ≤ usizeAdd fb.addr (fb.w * fb.h * 4 % 2 ^ 32) ∧
        usizeAdd fb.addr (fb.w * fb.h * 4 % 2 ^ 32) ≤ st.mem.length) →
      (StoreWrapper.get_framebuffer st).isOk = true) := by
  refine ⟨?_, ?_, ?_⟩
  · intro h
    simp [StoreWrapper.get_framebuffer, h]
  · intro fb hfb hoob
    simp only [StoreWrapper.get_framebuffer, hfb, rustSlice]
    rw [if_neg hoob]
  · intro fb hfb hib
    simp only [StoreWrapper.get_framebuffer, hfb, rustSlice]
    rw [if_pos hib]
    rfl

/-- Claim C7, witness: the amended theorem applied at the concrete
out-of-bounds fixture. -/
theorem C7_amended_witness :
    stFb.data.framebuffer = some { addr := 0, w := 2, h := 2 } ∧
    StoreWrapper.get_framebuffer stFb
      = .panic "range end index out of range for slice" :=
  ⟨rfl, (C7_amended_theorem stFb).2.1 { addr := 0, w := 2, h := 2 } rfl
    (by decide)⟩

end MunalOs

namespace MunalOs

/-! ## Claim C3 — host_tcp_close and the registry -/

/-- Closing a socket removes it from the stack's open set. -/
theorem TcpStack.not_mem_close (t : TcpStack) (sh : SocketHandle) :
    sh ∉ (t.close sh).openSockets := by
  simp [TcpStack.close]

/-- Claim C3, counterexample: `host_tcp_close(0)` on a registry mapping
id 0 to handle 0 succeeds but does NOT remove the entry — the id still
resolves afterwards (`SocketsStore` has no removal operation at all). -/
theorem C3_counterexample :
    stCtxSock.data.sockets_store.get_handle 0 = some 0 ∧
    (host_tcp_close stCtxSock kernA 0).isOk = true ∧
    (outStore2 (host_tcp_close stCtxSock kernA 0)).map
        (fun s => s.data.sockets_store.get_handle 0) = some (some 0) ∧
    (outStore2 (host_tcp_close stCtxSock kernA 0)).map
        (fun s => s.data.sockets_store.get_handle 0) ≠ some none := by
  refine ⟨rfl, rfl, by decide, by decide⟩

/-- Claim C3, amended: `host_tcp_close(id)` closes the socket in the TCP
stack but leaves the registry entry in place; a later
`host_tcp_write(addr, len, id)` naming the closed id still finds the
handle and returns -1 to the guest because the stack write on a closed
socket fails. -/
theorem C3_amended_theorem (st : EngineStore) (k : Kernel) (id : Int)
    (sh : SocketHandle) (ctx : StepContext)
    (hget : st.data.sockets_store.get_handle id = some sh)
    (hctx : st.data.step_context = some ctx) :
    (outStore2 (host_tcp_close st k id)).map (fun s => s.data.sockets_store)
      = some st.data.sockets_store ∧
    (match host_tcp_close st k id with
     | .ok (_, k2) => k2.system.tcp_stack.openSockets.contains sh
     | .panic _ => true) = false ∧
    (∀ (a l : Int) (st2 : EngineStore) (k2 : Kernel),
      host_tcp_close st k id = .ok (st2, k2) →
      (get_wasm_mem_slice st.mem a l).isOk = true →
      retVal (host_tcp_write st2 k2 a l id) = some (-1)) := by
  have hcl : host_tcp_close st k id
      = .ok ({ st with data := { st.data with step_context := some ctx } },
             { system := { k.system with
                 tcp_stack := k.system.tcp_stack.close sh },
               uuid_provider := k.uuid_provider }) := by
    simp [host_tcp_close, StoreData.with_step_context, hget, hctx]
  refine ⟨?_, ?_, ?_⟩
  · rw [hcl]
    simp [outStore2]
  · rw [hcl]
    simp [TcpStack.close]
  · intro a l st2 k2 h2 hs
    rw [hcl] at h2
    simp only [HostOutcome.ok.injEq, Prod.mk.injEq] at h2
    obtain ⟨h2a, h2b⟩ := h2
    subst h2a
    subst h2b
    rcases hbuf : get_wasm_mem_slice st.mem a l with buf | m
    · simp only [host_tcp_write]
      simp only [hbuf]
      simp [StoreData.with_step_context, hget, TcpStack.write,
        TcpStack.not_mem_close, retVal]
    · rw [hbuf] at hs
      simp [HostOutcome.isOk] at hs

/-- Claim C3, witness: the amended theorem applied at the concrete
connected fixture (id 0 ↦ handle 0, context installed). -/
theorem C3_amended_witness :
    stCtxSock.data.sockets_store.get_handle 0 = some 0 ∧
    stCtxSock.data.step_context = some ctxA ∧
    (outStore2 (host_tcp_close stCtxSock kernA 0)).map
        (fun s => s.data.sockets_store) = some stCtxSock.data.sockets_store :=
  ⟨by decide, rfl,
   (C3_amended_theorem stCtxSock kernA 0 0 ctxA (by decide) rfl).1⟩

end MunalOs

namespace MunalOs

/-! ## Claims C5, C8, C9, C10 — stepping, stats, input, pause -/

/-- Overwriting a stats point does not disturb the clock stream. -/
theorem System.clockStream_setStats (s : System) (n : String)
    (p : AppDataPoint) : (s.setStats n p).clockStream = s.clockStream := by
  simp [System.setStats]

/-- Overwriting a stats point does not disturb the clock counter. -/
theorem System.clockCount_setStats (s : System) (n : String)
    (p : AppDataPoint) : (s.setStats n p).clockCount = s.clockCount := by
  simp [System.setStats]

/-- The engine store state a paused tick leaves behind: fuel refreshed,
net counters zeroed, context cleared, everything else untouched. -/
def pausedStore (st : EngineStore) : EngineStore :=
  let d := { st.data with net_recv := 0, net_sent := 0, step_context := none }
  { st with fuel := STEP_FUEL, data := d }

/-- The stats point a paused tick records: zero net traffic, current
memory size, and the frametime between the two fresh clock samples. -/
def pausedPoint (st : EngineStore) (k : Kernel) : AppDataPoint :=
  { net_recv := 0, net_sent := 0, mem_used := st.memPages * 65536,
    frametime_used := (k.system.clockStream (k.system.clockCount + 1) : Int)
      - (k.system.clockStream k.system.clockCount : Int) }

/-- The stats point recorded after any non-panicking step: the store's
per-step net counters, pages × 64 KiB, and t₁ − t₀ — and nothing else;
in particular no fuel value. -/
def recordedPoint (st' : EngineStore) (k k' : Kernel) : AppDataPoint :=
  { net_recv := st'.data.net_recv, net_sent := st'.data.net_sent,
    mem_used := st'.memPages * 65536,
    frametime_used := (k'.system.clockStream (k'.system.clockCount - 1) : Int)
      - (k.system.clockStream k.system.clockCount : Int) }

/-- Claim C5, counterexample: a guest-supplied (offset 2, len 8) against
a 4-byte memory is NOT raised as a recoverable WASM trap: the bridge
panics the host (Rust slice indexing), and a step whose guest hits that
path aborts the kernel (`.panic`) instead of reporting a trapped tick
(`some false`) to the scheduler. -/
theorem C5_counterexample :
    get_wasm_mem_slice [0, 0, 0, 0] 2 8
      = .panic "range end index out of range for slice" ∧
    WasmApp.step gOOB stSmall kernA inputA rectA true false
      = .panic "range end index out of range for slice" ∧
    stepFlag (WasmApp.step gOOB stSmall kernA inputA rectA true false)
      ≠ some false := by
  refine ⟨rfl, rfl, by decide⟩

/-- Claim C5, amended: an out-of-bounds (offset, len) in the memory
bridge is a host panic, not a trap; a genuine engine trap does terminate
only the current step (the scheduler sees a recoverable `some false`);
and every step — including the one after a trapped tick — runs the guest
on a freshly set `STEP_FUEL` budget with a Step Context installed. -/
theorem C5_amended_theorem :
    (∀ (mem : List Nat) (addr len : Int),
      ¬(i32AsUsize addr ≤ usizeAdd (i32AsUsize addr) (i32AsUsize len) ∧
        usizeAdd (i32AsUsize addr) (i32AsUsize len) ≤ mem.length) →
      get_wasm_mem_slice mem addr len
        = .panic "range end index out of range for slice") ∧
    (∀ (g : Guest) (st : EngineStore) (k : Kernel) (i : InputState)
        (r : Rect) (fg : Bool),
      (∀ s kk, (g s kk).exit = GuestExit.trap) →
      stepFlag (WasmApp.step g st k i r fg false) = some false) ∧
    (∀ (g₁ g₂ : Guest) (st : EngineStore) (k : Kernel) (i : InputState)
        (r : Rect) (fg ps : Bool),
      (∀ s kk, s.fuel = STEP_FUEL → s.data.step_context.isSome = true →
        g₁ s kk = g₂ s kk) →
      WasmApp.step g₁ st k i r fg ps = WasmApp.step g₂ st k i r fg ps) := by
  refine ⟨?_, ?_, ?_⟩
  · intro mem addr len h
    simp only [get_wasm_mem_slice, rustSlice]
    rw [if_neg h]
  · intro g st k i r fg h
    simp only [WasmApp.step, StoreWrapper.with_context, stepFlag]
    simp only [h]
  · intro g₁ g₂ st k i r fg ps h
    cases ps
    · simp only [WasmApp.step, StoreWrapper.with_context]
      rw [h _ _ (by rfl) (by rfl)]
    · rfl

/-- Claim C5, witness: the amended theorem applied at the concrete
out-of-bounds access and at an always-trapping guest. -/
theorem C5_amended_witness :
    ¬(i32AsUsize 2 ≤ usizeAdd (i32AsUsize 2) (i32AsUsize 8) ∧
      usizeAdd (i32AsUsize 2) (i32AsUsize 8) ≤ ([0, 0, 0, 0] : List Nat).length) ∧
    get_wasm_mem_slice [0, 0, 0, 0] 2 8
      = .panic "range end index out of range for slice" ∧
    stepFlag (WasmApp.step gTrap stNoCtx kernA inputA rectA true false)
      = some false :=
  ⟨by decide, C5_amended_theorem.1 [0, 0, 0, 0] 2 8 (by decide),
   C5_amended_theorem.2.1 gTrap stNoCtx kernA inputA rectA true
     (fun s kk => rfl)⟩

/-- Claim C8, counterexample: the recorded Stats Point does not contain
the fuel consumed. Two guests that differ only in the fuel they leave
behind (100 vs 7 units, so STEP_FUEL − remaining differs) produce
identical recorded stats points. -/
theorem C8_counterexample :
    statsOf (WasmApp.step gFuelA stNoCtx kernA inputA rectA true false) "app"
      = statsOf (WasmApp.step gFuelB stNoCtx kernA inputA rectA true false)
          "app" ∧
    (stepStore (WasmApp.step gFuelA stNoCtx kernA inputA rectA true false)).map
        (·.fuel) = some 100 ∧
    (stepStore (WasmApp.step gFuelB stNoCtx kernA inputA rectA true false)).map
        (·.fuel) = some 7 ∧
    STEP_FUEL - 100 ≠ STEP_FUEL - 7 := by
  refine ⟨by decide, by decide, by decide, by decide⟩

/-- Claim C8, amended: every non-panicking step (normal or trapped)
overwrites the per-app stats point with exactly the per-step net
counters, the current pages × 64 KiB, and the frametime t₁ − t₀ sampled
around the step; no fuel figure is recorded. -/
theorem C8_amended_theorem (g : Guest) (st : EngineStore) (k : Kernel)
    (i : InputState) (r : Rect) (fg ps : Bool) :
    (match WasmApp.step g st k i r fg ps with
     | .ok (st', k', _) =>
         k'.system.getStats st'.data.app_name = some (recordedPoint st' k k')
     | .panic _ => True) := by
  rcases hstep : WasmApp.step g st k i r fg ps with ⟨st', k', b⟩ | m
  · cases ps
    · simp only [WasmApp.step, StoreWrapper.with_context, System.time] at hstep
      split at hstep
      · exact absurd hstep (by simp)
      · simp only [HostOutcome.ok.injEq, Prod.mk.injEq] at hstep
        obtain ⟨h1, h2, h3⟩ := hstep
        subst h1
        subst h2
        simp [recordedPoint, System.getStats_setStats,
          System.clockStream_setStats, System.clockCount_setStats]
    · simp only [WasmApp.step, StoreWrapper.with_context, System.time] at hstep
      simp only [HostOutcome.ok.injEq, Prod.mk.injEq] at hstep
      obtain ⟨h1, h2, h3⟩ := hstep
      subst h1
      subst h2
      simp [recordedPoint, System.getStats_setStats,
        System.clockStream_setStats, System.clockCount_setStats]
  · trivial

/-- Claim C9: the snapshot handed to a guest is the global input with
events cleared when the guest is not foreground (pointer kept),
coordinates translated by the window origin (x − x0, y − y0); foreground
guests keep all events under the same translation; and the guest's step
runs under a context carrying exactly this snapshot. -/
theorem C9_input_locality :
    (∀ (i : InputState) (r : Rect), (relativeInputState i r false).events = []) ∧
    (∀ (i : InputState) (r : Rect) (fg : Bool),
      (relativeInputState i r fg).pointer_x = i.pointer_x - r.x0 ∧
      (relativeInputState i r fg).pointer_y = i.pointer_y - r.y0) ∧
    (∀ (i : InputState) (r : Rect), (relativeInputState i r true).events
      = i.events.map (fun e => { e with x := e.x - r.x0, y := e.y - r.y0 })) ∧
    (∀ (g₁ g₂ : Guest) (st : EngineStore) (k : Kernel) (i : InputState)
        (r : Rect) (fg ps : Bool),
      (∀ s kk, s.data.step_context
          = some { input_state := relativeInputState i r fg, win_rect := r,
                   timings := [] } →
        g₁ s kk = g₂ s kk) →
      WasmApp.step g₁ st k i r fg ps = WasmApp.step g₂ st k i r fg ps) := by
  refine ⟨?_, ?_, ?_, ?_⟩
  · intro i r
    simp [relativeInputState, InputState.clear_events, InputState.change_origin,
      Rect.origin]
  · intro i r fg
    cases fg <;>
      simp [relativeInputState, InputState.clear_events,
        InputState.change_origin, Rect.origin]
  · intro i r
    simp [relativeInputState, InputState.change_origin, Rect.origin]
  · intro g₁ g₂ st k i r fg ps h
    cases ps
    · simp only [WasmApp.step, StoreWrapper.with_context]
      rw [h _ _ (by rfl)]
    · rfl

/-- Claim C9, witness: the context-sensitivity part applied to a guest
that checks it sees exactly the translated background snapshot. -/
theorem C9_witness :
    WasmApp.step gIdle stNoCtx kernA inputA rectA false false
      = WasmApp.step gCtxCheck stNoCtx kernA inputA rectA false false :=
  C9_input_locality.2.2.2 gIdle gCtxCheck stNoCtx kernA inputA rectA false
    false (fun s kk hctx => by simp [gIdle, gCtxCheck, hctx])

/-- Claim C10: when a guest is paused its step export is not invoked
(the step result is independent of the guest), yet the tick still enters
the Step Context (fuel reset to STEP_FUEL), zeroes the per-step net
counters, clears the context on exit, leaves all other store state
(framebuffer, sockets, console, memory) untouched, reports success, and
overwrites the stats point with zero traffic, the current memory size
and a fresh frametime. -/
theorem C10_paused_step :
    (∀ (g₁ g₂ : Guest) (st : EngineStore) (k : Kernel) (i : InputState)
        (r : Rect) (fg : Bool),
      WasmApp.step g₁ st k i r fg true = WasmApp.step g₂ st k i r fg true) ∧
    (∀ (g : Guest) (st : EngineStore) (k : Kernel) (i : InputState)
        (r : Rect) (fg : Bool),
      stepStore (WasmApp.step g st k i r fg true) = some (pausedStore st) ∧
      stepFlag (WasmApp.step g st k i r fg true) = some true ∧
      statsOf (WasmApp.step g st k i r fg true) st.data.app_name
        = some (pausedPoint st k)) := by
  refine ⟨fun g₁ g₂ st k i r fg => rfl, fun g st k i r fg => ⟨by rfl, by rfl, ?_⟩⟩
  exact System.getStats_setStats _ _ _

end MunalOs
